import Mathlib

/-
Shallow embedding of src/opus-decoder-worker.js (class OpusDecoderWorker and
the self.onmessage dispatcher).

Modelling decisions, each tied to a line of the source:
* The worker's mutable fields (decoder, wasmModule, inputBuffer, outputBuffer)
  become fields of `WorkerState`.  JS null is `Option.none`; the JS truthiness
  test `this.decoder && this.wasmModule` (lines 51, 97, 115, 126) becomes
  `readyGuard` (a WASM pointer 0 is falsy in JS, hence `jsTruthyPtr`).
* The native layer (libopus.js, an external collaborator outside this
  repository) is an oracle: `Oracle` supplies, per initialization attempt,
  whether the module load succeeds, the malloc results and the
  (handle, errorCode) pair of `_opus_decoder_create`, and, per decode call,
  the return value of `_opus_decode_float` together with the samples it
  writes into the output region.  Every native invocation the worker makes is
  recorded in a `NativeCall` trace.
* `initialize` (line 15) is async and suspends at `await import('./libopus.js')`
  before touching any state, so a call to it contributes `pendingInits + 1`
  to the state, and a separate scheduler action `Action.completeInit` runs the
  remainder of the function (lines 18-47).  This mirrors the JS event loop:
  the dispatcher's `await decoderWorker.initialize()` (line 143) and the
  un-awaited `this.initialize()` inside `reset` (line 121) both leave the rest
  of the function to run on a later event-loop turn, during which further
  messages can be handled.
* The WASM heap is modelled at byte granularity for the input staging region
  (`heapU8`) and at float granularity, addressed by byte address of each
  4-byte slot, for the output staging region (`heapF32`).  Sample values are
  `Rat` (the code only ever forwards them or materializes 0.0, so no float
  arithmetic is modelled).
* `Math.round(config.gain * 256)` (line 102) is `jsRound`, JS round-half-up.
* Thrown JS errors are `WorkerError`; the dispatcher's catch blocks become
  the `Except` eliminations in `handleMessage`.  The `catch` in `configure`
  (line 109) only logs: since `_opus_decoder_ctl` is the last action of its
  `try` block, a native throw there has no observable effect, so `configureM`
  needs no error case.  Event payload strings (error.message) are abstracted
  to the event constructors; `performance.now()` timestamps carry no
  information the claims mention and are omitted.
-/

namespace BLEAudio

/-- Record of one call into the native layer (libopus.js exports). -/
inductive NativeCall where
  | createCall (sampleRate channels : Nat)
  | decodeCall (handle inputPtr : Int) (inputLen : Nat) (outputPtr : Int) (maxSamples : Nat)
  | ctlCall (handle : Int) (ctlId : Nat) (value : Int)
  | destroyCall (handle : Int)
  | mallocCall (size : Nat)
  | freeCall (ptr : Int)
  deriving DecidableEq, Repr

/-- Errors thrown by OpusDecoderWorker.decode (source lines 52 and 75). -/
inductive WorkerError where
  | notInitialized
  | decodeFailure (code : Int)
  deriving DecidableEq, Repr

/-- Outbound postMessage events.  In decoded-audio, samplesDecoded is none in
the packet-loss branch (source lines 169-174), which posts no such field. -/
inductive OutEvent where
  | decoderReady
  | decoderError
  | decodedAudio (audioData : List Rat) (samplesDecoded : Option Nat) (isPacketLoss : Bool)
  | decodeError (err : WorkerError)
  | destroyed
  deriving DecidableEq, Repr

/-- Inbound commands, the cases of the switch at source line 141.  decode data
is none when the message carries no data field; configure is abstracted to its
only recognized option, gain (line 100); other covers unknown kinds, which the
switch ignores. -/
inductive Cmd where
  | init
  | decode (data : Option (List Nat))
  | configure (gain : Option Rat)
  | reset
  | destroy
  | other
  deriving DecidableEq

/-- Fixed constructor parameters of OpusDecoderWorker (source lines 10-12). -/
def maxFrameSize : Nat := 5760

def sampleRate : Nat := 48000

def channels : Nat := 1

/-- Control identifier for gain (source line 101). -/
def OPUS_SET_GAIN_REQUEST : Nat := 4034

/-- The worker's mutable fields plus model bookkeeping: pendingInits counts
calls to initialize suspended at their await; initCount and decodeCount index
the oracle; heapU8/heapF32 are the WASM heap views. -/
structure WorkerState where
  decoder : Option Int
  wasmModule : Bool
  inputBuffer : Option Int
  outputBuffer : Option Int
  pendingInits : Nat
  initCount : Nat
  decodeCount : Nat
  heapU8 : Int → Nat
  heapF32 : Int → Rat

/-- Constructor state (source lines 5-13). -/
def initialState : WorkerState where
  decoder := none
  wasmModule := false
  inputBuffer := none
  outputBuffer := none
  pendingInits := 0
  initCount := 0
  decodeCount := 0
  heapU8 := fun _ => 0
  heapF32 := fun _ => 0

/-- Responses of the external native layer, indexed by attempt number. -/
structure Oracle where
  loadOk : Nat → Bool
  errPtr : Nat → Int
  createRes : Nat → Int × Int
  mallocIn : Nat → Int
  mallocOut : Nat → Int
  decodeRes : Nat → Int
  decodeOut : Nat → Nat → Rat

/-- JS truthiness of a nullable WASM pointer: null and 0 are falsy. -/
def jsTruthyPtr : Option Int → Bool
  | none => false
  | some n => n != 0

/-- The guard `this.decoder && this.wasmModule` used at source lines 51, 97,
115 and 126. -/
def readyGuard (s : WorkerState) : Bool :=
  jsTruthyPtr s.decoder && s.wasmModule

/-- Math.round: round half toward positive infinity. -/
def jsRound (x : Rat) : Int := Rat.floor (x + 1/2)

/-- Write a byte list into the heap starting at ptr (the inputView.set of
source line 62). -/
def writeBytes (h : Int → Nat) (ptr : Int) : List Nat → (Int → Nat)
  | [] => h
  | b :: rest => writeBytes (fun a => if a = ptr then b else h a) (ptr + 1) rest

/-- Write n float samples (4-byte slots) into the heap starting at ptr: the
native decode filling the output staging region. -/
def writeSamples (h : Int → Rat) (ptr : Int) (vals : Nat → Rat) : Nat → (Int → Rat)
  | 0 => h
  | n + 1 => fun a => if a = ptr + 4 * (n : Int) then vals n else writeSamples h ptr vals n a

/-- Read n float samples from the heap starting at byte address ptr (the
outputView of source lines 79-83, copied at lines 85-86). -/
def readSamples (h : Int → Rat) (ptr : Int) (n : Nat) : List Rat :=
  (List.range n).map (fun i : Nat => h (ptr + 4 * (i : Int)))

/-- OpusDecoderWorker.decode (source lines 50-94).  Returns the new state, the
Except result (ok samples, or the thrown error), and the native calls made. -/
def decodeM (o : Oracle) (s : WorkerState) (opusData : List Nat) :
    WorkerState × Except WorkerError (List Rat) × List NativeCall :=
  if readyGuard s then
    let inPtr := s.inputBuffer.getD 0
    let outPtr := s.outputBuffer.getD 0
    let s1 : WorkerState := { s with heapU8 := writeBytes s.heapU8 inPtr opusData }
    let samplesDecoded := o.decodeRes s.decodeCount
    let call := NativeCall.decodeCall (s.decoder.getD 0) inPtr opusData.length outPtr maxFrameSize
    if samplesDecoded < 0 then
      ({ s1 with decodeCount := s.decodeCount + 1 },
       Except.error (WorkerError.decodeFailure samplesDecoded), [call])
    else
      let s2 : WorkerState :=
        { s1 with decodeCount := s.decodeCount + 1,
                  heapF32 := writeSamples s1.heapF32 outPtr (o.decodeOut s.decodeCount)
                               samplesDecoded.toNat }
      (s2, Except.ok (readSamples s2.heapF32 outPtr samplesDecoded.toNat), [call])
  else
    (s, Except.error WorkerError.notInitialized, [])

/-- OpusDecoderWorker.configure (source lines 96-112).  Never throws outward:
the guard returns silently and the try/catch swallows any native failure (the
ctl call is the last action of the try block, and its status is ignored). -/
def configureM (s : WorkerState) (gain : Option Rat) : WorkerState × List NativeCall :=
  if readyGuard s then
    match gain with
    | some g =>
        (s, [NativeCall.ctlCall (s.decoder.getD 0) OPUS_SET_GAIN_REQUEST (jsRound (g * 256))])
    | none => (s, [])
  else (s, [])

/-- OpusDecoderWorker.reset (source lines 114-123).  Destroys and frees, then
calls initialize() WITHOUT awaiting it, so only a pending init is recorded;
decoder and the buffer pointer fields are NOT cleared. -/
def resetM (s : WorkerState) : WorkerState × List NativeCall :=
  if readyGuard s then
    ({ s with pendingInits := s.pendingInits + 1 },
     [NativeCall.destroyCall (s.decoder.getD 0),
      NativeCall.freeCall (s.inputBuffer.getD 0),
      NativeCall.freeCall (s.outputBuffer.getD 0)])
  else (s, [])

/-- OpusDecoderWorker.destroy (source lines 125-132): frees and nulls decoder
(only decoder: wasmModule and the buffer pointer fields are kept). -/
def destroyM (s : WorkerState) : WorkerState × List NativeCall :=
  if readyGuard s then
    ({ s with decoder := none },
     [NativeCall.destroyCall (s.decoder.getD 0),
      NativeCall.freeCall (s.inputBuffer.getD 0),
      NativeCall.freeCall (s.outputBuffer.getD 0)])
  else (s, [])

/-- The part of initialize after its await (source lines 18-47), run when the
suspended call resumes.  On load failure the catch posts decoder-error and no
field changes.  Otherwise wasmModule is set, errorPtr is malloced, create is
called and its handle assigned to decoder BEFORE the error check (lines
23-27), errorPtr freed; a non-zero errorCode throws into the catch
(decoder-error, buffers untouched); on success both buffers are malloced and
decoder-ready is posted. -/
def finishInit (o : Oracle) (s : WorkerState) :
    WorkerState × List OutEvent × List NativeCall :=
  if s.pendingInits = 0 then (s, [], [])
  else
    let n := s.initCount
    let s0 : WorkerState := { s with pendingInits := s.pendingInits - 1, initCount := n + 1 }
    if o.loadOk n then
      let handle := (o.createRes n).1
      let errorCode := (o.createRes n).2
      let calls1 := [NativeCall.mallocCall 4, NativeCall.createCall sampleRate channels,
                     NativeCall.freeCall (o.errPtr n)]
      if errorCode ≠ 0 then
        ({ s0 with wasmModule := true, decoder := some handle },
         [OutEvent.decoderError], calls1)
      else
        ({ s0 with wasmModule := true, decoder := some handle,
                   inputBuffer := some (o.mallocIn n),
                   outputBuffer := some (o.mallocOut n) },
         [OutEvent.decoderReady],
         calls1 ++ [NativeCall.mallocCall 4000, NativeCall.mallocCall (maxFrameSize * 4)])
    else
      (s0, [OutEvent.decoderError], [])

/-- Fixed silence frame of the packet-loss branch: new Float32Array(480)
(source line 168) is 480 zero samples. -/
def silenceBuffer : List Rat := List.replicate 480 0

/-- The self.onmessage dispatcher (source lines 138-191): the synchronous part
of handling one inbound message.  An init (and the initialize() inside a
guarded reset) only records a pending init; its completion is a separate
scheduler action. -/
def handleMessage (o : Oracle) (s : WorkerState) :
    Cmd → WorkerState × List OutEvent × List NativeCall
  | Cmd.init => ({ s with pendingInits := s.pendingInits + 1 }, [], [])
  | Cmd.decode data =>
    match data with
    | some bytes =>
      if bytes.length > 0 then
        let r := decodeM o s bytes
        match r.2.1 with
        | Except.ok audio =>
            (r.1, [OutEvent.decodedAudio audio (some audio.length) false], r.2.2)
        | Except.error e => (r.1, [OutEvent.decodeError e], r.2.2)
      else (s, [OutEvent.decodedAudio silenceBuffer none true], [])
    | none => (s, [OutEvent.decodedAudio silenceBuffer none true], [])
  | Cmd.configure gain =>
    let r := configureM s gain
    (r.1, [], r.2)
  | Cmd.reset =>
    let r := resetM s
    (r.1, [], r.2)
  | Cmd.destroy =>
    let r := destroyM s
    (r.1, [OutEvent.destroyed], r.2)
  | Cmd.other => (s, [], [])

/-- Scheduler actions: deliver one message, or resume one suspended
initialize call (an event-loop turn completing the awaited module load). -/
inductive Action where
  | deliver (cmd : Cmd)
  | completeInit
  deriving DecidableEq

def step (o : Oracle) (s : WorkerState) : Action → WorkerState × List OutEvent × List NativeCall
  | Action.deliver c => handleMessage o s c
  | Action.completeInit => finishInit o s

/-- Run a sequence of scheduler actions, concatenating events and native
calls. -/
def run (o : Oracle) (s : WorkerState) : List Action → WorkerState × List OutEvent × List NativeCall
  | [] => (s, [], [])
  | a :: rest =>
    let r := step o s a
    let r2 := run o r.1 rest
    (r2.1, r.2.1 ++ r2.2.1, r.2.2 ++ r2.2.2)

/-- A well-behaved native layer: successful loads, create succeeds with
handle n+1 on the nth attempt, distinct malloc results, every decode returns
960 samples whose values are their indices. -/
def o1 : Oracle where
  loadOk := fun _ => true
  errPtr := fun n => 50 + n
  createRes := fun n => ((n : Int) + 1, 0)
  mallocIn := fun n => 1000 + 100 * (n : Int)
  mallocOut := fun n => 10000 + 100 * (n : Int)
  decodeRes := fun _ => 960
  decodeOut := fun _ i => (i : Rat)

/-- A native layer whose create always fails with error code -1 and, per the
libopus contract, a null handle. -/
def oFail : Oracle where
  loadOk := fun _ => true
  errPtr := fun _ => 50
  createRes := fun _ => (0, -1)
  mallocIn := fun _ => 1000
  mallocOut := fun _ => 10000
  decodeRes := fun _ => 960
  decodeOut := fun _ i => (i : Rat)

/-- The state after init has been delivered and its initialization completed
successfully under o1: decoder = some 1, buffers at 1000 and 10000. -/
def readyS : WorkerState :=
  (run o1 initialState [Action.deliver Cmd.init, Action.completeInit]).1

/-- A native layer whose first decode call fails with code -4 and whose later
decode calls return 960 samples. -/
def oFailOnce : Oracle where
  loadOk := fun _ => true
  errPtr := fun n => 50 + n
  createRes := fun n => ((n : Int) + 1, 0)
  mallocIn := fun _ => 1000
  mallocOut := fun _ => 10000
  decodeRes := fun n => if n = 0 then -4 else 960
  decodeOut := fun _ i => (i : Rat)

/-! ## Helper lemmas about the heap model -/

theorem writeBytes_lt (l : List Nat) (h : Int → Nat) (p a : Int) (hap : a < p) :
    writeBytes h p l a = h a := by
  induction l generalizing h p with
  | nil => rfl
  | cons b rest ih =>
    simp only [writeBytes]
    rw [ih _ (p + 1) (by omega)]
    exact if_neg (by omega)

theorem writeBytes_get (l : List Nat) (h : Int → Nat) (p : Int) (i : Nat) (hi : i < l.length) :
    writeBytes h p l (p + (i : Int)) = l.get ⟨i, hi⟩ := by
  induction l generalizing h p i with
  | nil => simp at hi
  | cons b rest ih =>
    cases i with
    | zero =>
      simp only [writeBytes]
      rw [writeBytes_lt rest _ (p + 1) _ (by omega)]
      simp
    | succ j =>
      simp only [writeBytes]
      have hj : j < rest.length := by simpa using hi
      have hcast : p + ((j + 1 : Nat) : Int) = (p + 1) + (j : Int) := by push_cast; ring
      rw [hcast, ih _ (p + 1) j hj]
      rfl

theorem writeSamples_get (h : Int → Rat) (p : Int) (v : Nat → Rat) (n i : Nat) (hi : i < n) :
    writeSamples h p v n (p + 4 * (i : Int)) = v i := by
  induction n with
  | zero => omega
  | succ m ih =>
    by_cases hc : i = m
    · subst hc
      simp [writeSamples]
    · have him : i < m := by omega
      simp only [writeSamples]
      rw [if_neg (by omega : ¬ p + 4 * (i : Int) = p + 4 * (m : Int))]
      exact ih him

theorem readSamples_length (h : Int → Rat) (p : Int) (n : Nat) :
    (readSamples h p n).length = n := by
  unfold readSamples
  rw [List.length_map, List.length_range]

theorem readSamples_get (h : Int → Rat) (p : Int) (n i : Nat)
    (hi : i < (readSamples h p n).length) :
    (readSamples h p n).get ⟨i, hi⟩ = h (p + 4 * (i : Int)) := by
  simp only [readSamples, List.get_eq_getElem, List.getElem_map, List.getElem_range]

/-! ## Shared lemmas about decodeM and the dispatcher -/

theorem decodeM_failure (o : Oracle) (s : WorkerState) (bytes : List Nat)
    (hready : readyGuard s = true) (hr : o.decodeRes s.decodeCount < 0) :
    decodeM o s bytes =
      ({ s with heapU8 := writeBytes s.heapU8 (s.inputBuffer.getD 0) bytes,
                decodeCount := s.decodeCount + 1 },
       Except.error (WorkerError.decodeFailure (o.decodeRes s.decodeCount)),
       [NativeCall.decodeCall (s.decoder.getD 0) (s.inputBuffer.getD 0) bytes.length
          (s.outputBuffer.getD 0) maxFrameSize]) := by
  simp [decodeM, hready, hr]

theorem decodeM_success (o : Oracle) (s : WorkerState) (bytes : List Nat)
    (hready : readyGuard s = true) (hr : 0 ≤ o.decodeRes s.decodeCount) :
    decodeM o s bytes =
      ({ s with heapU8 := writeBytes s.heapU8 (s.inputBuffer.getD 0) bytes,
                decodeCount := s.decodeCount + 1,
                heapF32 := writeSamples s.heapF32 (s.outputBuffer.getD 0)
                             (o.decodeOut s.decodeCount) (o.decodeRes s.decodeCount).toNat },
       Except.ok (readSamples
         (writeSamples s.heapF32 (s.outputBuffer.getD 0) (o.decodeOut s.decodeCount)
            (o.decodeRes s.decodeCount).toNat)
         (s.outputBuffer.getD 0) (o.decodeRes s.decodeCount).toNat),
       [NativeCall.decodeCall (s.decoder.getD 0) (s.inputBuffer.getD 0) bytes.length
          (s.outputBuffer.getD 0) maxFrameSize]) := by
  simp [decodeM, hready, not_lt.mpr hr]

theorem handleMessage_decode_failure (o : Oracle) (s : WorkerState) (bytes : List Nat)
    (hready : readyGuard s = true) (hb : bytes.length > 0)
    (hr : o.decodeRes s.decodeCount < 0) :
    handleMessage o s (Cmd.decode (some bytes)) =
      ({ s with heapU8 := writeBytes s.heapU8 (s.inputBuffer.getD 0) bytes,
                decodeCount := s.decodeCount + 1 },
       [OutEvent.decodeError (WorkerError.decodeFailure (o.decodeRes s.decodeCount))],
       [NativeCall.decodeCall (s.decoder.getD 0) (s.inputBuffer.getD 0) bytes.length
          (s.outputBuffer.getD 0) maxFrameSize]) := by
  simp only [handleMessage, if_pos hb, decodeM_failure o s bytes hready hr]

theorem handleMessage_decode_success (o : Oracle) (s : WorkerState) (bytes : List Nat)
    (hready : readyGuard s = true) (hb : bytes.length > 0)
    (hr : 0 ≤ o.decodeRes s.decodeCount) :
    handleMessage o s (Cmd.decode (some bytes)) =
      ({ s with heapU8 := writeBytes s.heapU8 (s.inputBuffer.getD 0) bytes,
                decodeCount := s.decodeCount + 1,
                heapF32 := writeSamples s.heapF32 (s.outputBuffer.getD 0)
                             (o.decodeOut s.decodeCount) (o.decodeRes s.decodeCount).toNat },
       [OutEvent.decodedAudio
          (readSamples
            (writeSamples s.heapF32 (s.outputBuffer.getD 0) (o.decodeOut s.decodeCount)
               (o.decodeRes s.decodeCount).toNat)
            (s.outputBuffer.getD 0) (o.decodeRes s.decodeCount).toNat)
          (some (readSamples
            (writeSamples s.heapF32 (s.outputBuffer.getD 0) (o.decodeOut s.decodeCount)
               (o.decodeRes s.decodeCount).toNat)
            (s.outputBuffer.getD 0) (o.decodeRes s.decodeCount).toNat).length)
          false],
       [NativeCall.decodeCall (s.decoder.getD 0) (s.inputBuffer.getD 0) bytes.length
          (s.outputBuffer.getD 0) maxFrameSize]) := by
  simp only [handleMessage, if_pos hb, decodeM_success o s bytes hready hr]

/-! ## Claims -/

/-- C1 counterexample.  The claim states that calling decode OR configure while
the session is not Ready fails locally with a NotInitialized error.  This is
false for configure: in the constructor state (clearly not Ready), a configure
command is a silent no-op with no event, no thrown error and no native call
(source line 97 just returns), while decode in the same state does fail with
NotInitialized as the claim says. -/
theorem c1_counterexample :
    handleMessage o1 initialState (Cmd.configure (some 1)) = (initialState, [], []) ∧
    handleMessage o1 initialState (Cmd.decode (some [1, 2, 3])) =
      (initialState, [OutEvent.decodeError WorkerError.notInitialized], []) := by
  constructor <;> rfl

/-- C1 (amended): while the initialization guard fails (decoder handle or
module reference unset, the condition at source lines 51 and 97), decode fails
with NotInitialized and performs no native call, and configure is a silent
no-op that performs no native call; moreover any initialization attempt in
which the native create primitive reports a non-zero error code (returning,
per the libopus contract, a null handle) leaves the guard unset. -/
theorem c1_guard_blocks_decode_and_configure :
    (∀ (o : Oracle) (s : WorkerState) (bytes : List Nat), readyGuard s = false →
       decodeM o s bytes = (s, Except.error WorkerError.notInitialized, [])) ∧
    (∀ (s : WorkerState) (g : Option Rat), readyGuard s = false →
       configureM s g = (s, [])) ∧
    (∀ (o : Oracle) (s : WorkerState), s.pendingInits ≠ 0 →
       o.loadOk s.initCount = true →
       (o.createRes s.initCount).2 ≠ 0 → (o.createRes s.initCount).1 = 0 →
       readyGuard (finishInit o s).1 = false) := by
  refine ⟨?_, ?_, ?_⟩
  · intro o s bytes hg
    simp [decodeM, hg]
  · intro s g hg
    simp [configureM, hg]
  · intro o s hp hl he hh
    simp only [finishInit, if_neg hp, hl, if_true, if_pos he, hh, readyGuard, jsTruthyPtr]
    simp

/-- Witness for c1_guard_blocks_decode_and_configure at concrete inputs: the
constructor state for decode and configure, and a failing create (oFail) for
the initialization clause. -/
theorem c1_witness :
    decodeM o1 initialState [1, 2, 3] =
      (initialState, Except.error WorkerError.notInitialized, []) ∧
    configureM initialState (some 1) = (initialState, []) ∧
    readyGuard (finishInit oFail { initialState with pendingInits := 1 }).1 = false :=
  ⟨c1_guard_blocks_decode_and_configure.1 o1 initialState [1, 2, 3] (by decide),
   c1_guard_blocks_decode_and_configure.2.1 initialState (some 1) (by decide),
   c1_guard_blocks_decode_and_configure.2.2 oFail { initialState with pendingInits := 1 }
     (by decide) (by decide) (by decide) (by decide)⟩

/-- Command sequence exhibiting the reset/decode race: successful init, then
reset, then a decode delivered before the reset's reinitialization resumes. -/
def c2acts : List Action :=
  [Action.deliver Cmd.init, Action.completeInit, Action.deliver Cmd.reset,
   Action.deliver (Cmd.decode (some [1, 2, 3]))]

/-- C2 (code bug).  reset at source line 121 calls initialize() without
awaiting it and does not clear this.decoder, so a decode delivered before the
reinitialization's module import resolves passes the guard and invokes the
native decode primitive on the already-destroyed handle.  Concretely, under
the well-behaved oracle o1 the native-call trace of init / completeInit /
reset / decode ends with a decodeCall on handle 1 AFTER destroyCall 1, while
the reinitialization is still pending (pendingInits = 1) — contradicting the
claim that no part of the decode executes until reinitialization completes. -/
theorem c2_reset_then_decode_uses_destroyed_handle :
    (run o1 initialState c2acts).2.2 =
      [NativeCall.mallocCall 4, NativeCall.createCall 48000 1, NativeCall.freeCall 50,
       NativeCall.mallocCall 4000, NativeCall.mallocCall 23040,
       NativeCall.destroyCall 1, NativeCall.freeCall 1000, NativeCall.freeCall 10000,
       NativeCall.decodeCall 1 1000 3 10000 5760] ∧
    (run o1 initialState c2acts).1.pendingInits = 1 := by
  constructor <;> decide

/-- C3: a decode command whose payload is absent or zero-length makes no
native call, leaves the state untouched, and emits exactly one decoded-audio
event whose buffer is the 480-sample silence frame, every sample 0, tagged
isPacketLoss = true (source lines 166-175). -/
theorem c3_packet_loss_silence (o : Oracle) (s : WorkerState) (d : Option (List Nat))
    (hd : d = none ∨ d = some []) :
    handleMessage o s (Cmd.decode d) =
      (s, [OutEvent.decodedAudio silenceBuffer none true], []) ∧
    silenceBuffer.length = 480 ∧ (∀ x ∈ silenceBuffer, x = 0) := by
  refine ⟨?_, by simp only [silenceBuffer, List.length_replicate], ?_⟩
  · rcases hd with h | h <;> subst h <;> simp [handleMessage]
  · intro x hx
    simp only [silenceBuffer] at hx
    exact List.eq_of_mem_replicate hx

/-- Witness for c3_packet_loss_silence: an absent payload in the ready
state. -/
theorem c3_witness :
    handleMessage o1 readyS (Cmd.decode none) =
      (readyS, [OutEvent.decodedAudio silenceBuffer none true], []) ∧
    silenceBuffer.length = 480 ∧ (∀ x ∈ silenceBuffer, x = 0) :=
  c3_packet_loss_silence o1 readyS none (Or.inl rfl)

/-- C4: when the native decode primitive returns a negative value on a decode
in a guard-passing (Ready) state, the dispatcher emits a single decode-error
carrying that code, the session's lifecycle fields (decoder handle, module,
both buffer pointers) are unchanged and the guard still passes, and a
subsequent decode for which the native primitive returns a non-negative count
emits a normal decoded-audio result (source lines 74-76 and 146-165). -/
theorem c4_decode_failure_isolated (o : Oracle) (s : WorkerState) (b1 b2 : List Nat)
    (hready : readyGuard s = true) (hb1 : b1.length > 0) (hb2 : b2.length > 0)
    (hfail : o.decodeRes s.decodeCount < 0)
    (hok : 0 ≤ o.decodeRes (s.decodeCount + 1)) :
    (handleMessage o s (Cmd.decode (some b1))).2.1 =
      [OutEvent.decodeError (WorkerError.decodeFailure (o.decodeRes s.decodeCount))] ∧
    (handleMessage o s (Cmd.decode (some b1))).1.decoder = s.decoder ∧
    (handleMessage o s (Cmd.decode (some b1))).1.wasmModule = s.wasmModule ∧
    (handleMessage o s (Cmd.decode (some b1))).1.inputBuffer = s.inputBuffer ∧
    (handleMessage o s (Cmd.decode (some b1))).1.outputBuffer = s.outputBuffer ∧
    readyGuard (handleMessage o s (Cmd.decode (some b1))).1 = true ∧
    (∃ audio : List Rat,
       (handleMessage o (handleMessage o s (Cmd.decode (some b1))).1
           (Cmd.decode (some b2))).2.1 =
         [OutEvent.decodedAudio audio (some audio.length) false] ∧
       audio.length = (o.decodeRes (s.decodeCount + 1)).toNat) := by
  rw [handleMessage_decode_failure o s b1 hready hb1 hfail]
  refine ⟨rfl, rfl, rfl, rfl, rfl, hready, ?_⟩
  rw [handleMessage_decode_success o
        { s with heapU8 := writeBytes s.heapU8 (s.inputBuffer.getD 0) b1,
                 decodeCount := s.decodeCount + 1 } b2 hready hb2 hok]
  exact ⟨_, rfl, readSamples_length _ _ _⟩

/-- Witness for c4_decode_failure_isolated: under oFailOnce the first decode
from the ready state fails with code -4 and the next decode succeeds. -/
theorem c4_witness :
    (handleMessage oFailOnce readyS (Cmd.decode (some [1, 2]))).2.1 =
      [OutEvent.decodeError
         (WorkerError.decodeFailure (oFailOnce.decodeRes readyS.decodeCount))] ∧
    (handleMessage oFailOnce readyS (Cmd.decode (some [1, 2]))).1.decoder = readyS.decoder ∧
    (handleMessage oFailOnce readyS (Cmd.decode (some [1, 2]))).1.wasmModule =
      readyS.wasmModule ∧
    (handleMessage oFailOnce readyS (Cmd.decode (some [1, 2]))).1.inputBuffer =
      readyS.inputBuffer ∧
    (handleMessage oFailOnce readyS (Cmd.decode (some [1, 2]))).1.outputBuffer =
      readyS.outputBuffer ∧
    readyGuard (handleMessage oFailOnce readyS (Cmd.decode (some [1, 2]))).1 = true ∧
    (∃ audio : List Rat,
       (handleMessage oFailOnce (handleMessage oFailOnce readyS (Cmd.decode (some [1, 2]))).1
           (Cmd.decode (some [3, 4]))).2.1 =
         [OutEvent.decodedAudio audio (some audio.length) false] ∧
       audio.length = (oFailOnce.decodeRes (readyS.decodeCount + 1)).toNat) :=
  c4_decode_failure_isolated oFailOnce readyS [1, 2] [3, 4] (by decide) (by decide)
    (by decide) (by decide) (by decide)

/-- C5 counterexample.  The claim states that every inbound command produces
exactly one outbound event.  This is false for configure: in the ready state a
configure command with a gain performs its native ctl call but emits no event
at all (the dispatcher case at source lines 178-180 posts nothing). -/
theorem c5_counterexample :
    (handleMessage o1 readyS (Cmd.configure (some 1))).2.1 = [] ∧
    (handleMessage o1 readyS (Cmd.configure (some 1))).2.2 =
      [NativeCall.ctlCall 1 OPUS_SET_GAIN_REQUEST 256] := by
  have hj : jsRound (1 * 256) = 256 := by norm_num [jsRound, Rat.floor]
  have ht : (handleMessage o1 readyS (Cmd.configure (some 1))).2.2 =
      [NativeCall.ctlCall 1 OPUS_SET_GAIN_REQUEST (jsRound (1 * 256))] := rfl
  exact ⟨rfl, by rw [ht, hj]⟩

/-- C5 (amended): decode and destroy commands each produce exactly one
outbound event; configure and unknown commands produce none; init and reset
produce none directly but record pending initializations (init always, reset
exactly when the guard passes), and completing any pending initialization
produces exactly one outbound event (decoder-ready or decoder-error). -/
theorem c5_event_counts :
    (∀ (o : Oracle) (s : WorkerState) (d : Option (List Nat)),
       ((handleMessage o s (Cmd.decode d)).2.1).length = 1) ∧
    (∀ (o : Oracle) (s : WorkerState),
       ((handleMessage o s Cmd.destroy).2.1).length = 1) ∧
    (∀ (o : Oracle) (s : WorkerState) (g : Option Rat),
       (handleMessage o s (Cmd.configure g)).2.1 = []) ∧
    (∀ (o : Oracle) (s : WorkerState), (handleMessage o s Cmd.other).2.1 = []) ∧
    (∀ (o : Oracle) (s : WorkerState),
       (handleMessage o s Cmd.init).2.1 = [] ∧
       (handleMessage o s Cmd.init).1.pendingInits = s.pendingInits + 1) ∧
    (∀ (o : Oracle) (s : WorkerState),
       (handleMessage o s Cmd.reset).2.1 = [] ∧
       (handleMessage o s Cmd.reset).1.pendingInits =
         (if readyGuard s then s.pendingInits + 1 else s.pendingInits)) ∧
    (∀ (o : Oracle) (s : WorkerState), s.pendingInits ≠ 0 →
       ((finishInit o s).2.1).length = 1) := by
  refine ⟨?_, ?_, ?_, ?_, ?_, ?_, ?_⟩
  · intro o s d
    cases d with
    | none => rfl
    | some bytes =>
      by_cases hb : bytes.length > 0
      · cases hres : (decodeM o s bytes).2.1 with
        | ok audio => simp [handleMessage, hb, hres]
        | error e => simp [handleMessage, hb, hres]
      · simp [handleMessage, hb]
  · intro o s
    rfl
  · intro o s g
    rfl
  · intro o s
    rfl
  · intro o s
    exact ⟨rfl, rfl⟩
  · intro o s
    refine ⟨rfl, ?_⟩
    by_cases hg : readyGuard s = true <;> simp [handleMessage, resetM, hg]
  · intro o s hp
    simp only [finishInit, if_neg hp]
    split
    · split
      · rfl
      · rfl
    · rfl

/-- Witness for c5_event_counts: a nonempty decode in the ready state and a
completing initialization. -/
theorem c5_witness :
    ((handleMessage o1 readyS (Cmd.decode (some [1]))).2.1).length = 1 ∧
    ((finishInit o1 { initialState with pendingInits := 1 }).2.1).length = 1 :=
  ⟨c5_event_counts.1 o1 readyS (some [1]),
   c5_event_counts.2.2.2.2.2.2 o1 { initialState with pendingInits := 1 } (by decide)⟩

/-- C6: a successful decode in a guard-passing state emits one decoded-audio
event whose buffer has exactly samplesDecoded entries copied from the output
staging region (the post-state float heap starting at the output buffer
pointer), the native decode is invoked with maxFrameSize = 5760 as its
max-samples argument, and under the assumption that the native primitive
returns a count not exceeding that argument the buffer length is at most
maxFrameSize (source lines 65-88). -/
theorem c6_decode_success_output (o : Oracle) (s : WorkerState) (bytes : List Nat)
    (hready : readyGuard s = true) (hb : bytes.length > 0)
    (hr : 0 ≤ o.decodeRes s.decodeCount)
    (hcap : o.decodeRes s.decodeCount ≤ 5760) :
    ∃ audio : List Rat,
      (handleMessage o s (Cmd.decode (some bytes))).2.1 =
        [OutEvent.decodedAudio audio (some audio.length) false] ∧
      (handleMessage o s (Cmd.decode (some bytes))).2.2 =
        [NativeCall.decodeCall (s.decoder.getD 0) (s.inputBuffer.getD 0) bytes.length
           (s.outputBuffer.getD 0) maxFrameSize] ∧
      audio.length = (o.decodeRes s.decodeCount).toNat ∧
      audio.length ≤ maxFrameSize ∧
      (∀ (i : Nat) (hi : i < audio.length),
        audio.get ⟨i, hi⟩ =
          (handleMessage o s (Cmd.decode (some bytes))).1.heapF32
            (s.outputBuffer.getD 0 + 4 * (i : Int))) := by
  rw [handleMessage_decode_success o s bytes hready hb hr]
  refine ⟨readSamples
      (writeSamples s.heapF32 (s.outputBuffer.getD 0) (o.decodeOut s.decodeCount)
         (o.decodeRes s.decodeCount).toNat)
      (s.outputBuffer.getD 0) (o.decodeRes s.decodeCount).toNat,
    rfl, rfl, readSamples_length _ _ _, ?_, ?_⟩
  · rw [readSamples_length]
    simp only [maxFrameSize]
    omega
  · intro i hi
    exact readSamples_get _ _ _ i hi

/-- Witness for c6_decode_success_output: a 1-byte packet decoded from the
ready state under o1, whose native decode returns 960 samples. -/
theorem c6_witness :
    ∃ audio : List Rat,
      (handleMessage o1 readyS (Cmd.decode (some [9]))).2.1 =
        [OutEvent.decodedAudio audio (some audio.length) false] ∧
      (handleMessage o1 readyS (Cmd.decode (some [9]))).2.2 =
        [NativeCall.decodeCall (readyS.decoder.getD 0) (readyS.inputBuffer.getD 0)
           ([9] : List Nat).length (readyS.outputBuffer.getD 0) maxFrameSize] ∧
      audio.length = (o1.decodeRes readyS.decodeCount).toNat ∧
      audio.length ≤ maxFrameSize ∧
      (∀ (i : Nat) (hi : i < audio.length),
        audio.get ⟨i, hi⟩ =
          (handleMessage o1 readyS (Cmd.decode (some [9]))).1.heapF32
            (readyS.outputBuffer.getD 0 + 4 * (i : Int))) :=
  c6_decode_success_output o1 readyS [9] (by decide) (by decide) (by decide) (by decide)

/-- C7: a configure in a guard-passing state whose update carries gain g calls
the native control primitive with identifier 4034 and integer value
round(g * 256); with the guard unset configure is a silent no-op; and a
configure command never emits any event and never changes the state, so no
native-side ctl outcome is surfaced or affects lifecycle (source lines
96-112 and 178-180; the ctl call is the last action of its try block and its
status is discarded, so a native failure there is observationally absorbed by
the catch). -/
theorem c7_configure_gain :
    (∀ (s : WorkerState) (g : Rat), readyGuard s = true →
       configureM s (some g) =
         (s, [NativeCall.ctlCall (s.decoder.getD 0) OPUS_SET_GAIN_REQUEST
                (jsRound (g * 256))])) ∧
    (∀ (s : WorkerState) (g : Option Rat), readyGuard s = false →
       configureM s g = (s, [])) ∧
    (∀ (o : Oracle) (s : WorkerState) (g : Option Rat),
       (handleMessage o s (Cmd.configure g)).2.1 = [] ∧
       (handleMessage o s (Cmd.configure g)).1 = s) := by
  refine ⟨?_, ?_, ?_⟩
  · intro s g hg
    simp [configureM, hg]
  · intro s g hg
    simp [configureM, hg]
  · intro o s g
    refine ⟨rfl, ?_⟩
    show (configureM s g).1 = s
    by_cases hg : readyGuard s = true
    · cases g <;> simp [configureM, hg]
    · simp [configureM, hg]

/-- Witness for c7_configure_gain: gain 3/2 in the ready state (ctl value
jsRound (3/2 * 256) = 384) and gain 1 in the constructor state. -/
theorem c7_witness :
    configureM readyS (some (3/2)) =
      (readyS, [NativeCall.ctlCall (readyS.decoder.getD 0) OPUS_SET_GAIN_REQUEST
         (jsRound ((3/2) * 256))]) ∧
    configureM initialState (some 1) = (initialState, []) :=
  ⟨c7_configure_gain.1 readyS (3/2) (by decide),
   c7_configure_gain.2.1 initialState (some 1) (by decide)⟩

/-- C8: destroy is idempotent.  For any state, delivering destroy twice emits
exactly two destroyed acknowledgments; the second destroy returns the state
unchanged and performs no native call whatsoever (the guard at source line 126
fails because the first destroy nulled this.decoder at line 130, and the
dispatcher posts destroyed unconditionally at line 188). -/
theorem c8_destroy_idempotent (o : Oracle) (s : WorkerState) :
    (run o s [Action.deliver Cmd.destroy, Action.deliver Cmd.destroy]).2.1 =
      [OutEvent.destroyed, OutEvent.destroyed] ∧
    handleMessage o (handleMessage o s Cmd.destroy).1 Cmd.destroy =
      ((handleMessage o s Cmd.destroy).1, [OutEvent.destroyed], []) := by
  have key : readyGuard (destroyM s).1 = false := by
    by_cases hg : readyGuard s = true
    · simp only [destroyM, if_pos hg]
      rfl
    · simp only [destroyM, if_neg hg]
      simpa using hg
  have h2 : destroyM (destroyM s).1 = ((destroyM s).1, []) := by
    generalize hq : (destroyM s).1 = t at key
    simp [destroyM, key]
  constructor
  · simp [run, step, handleMessage]
  · simp [handleMessage, h2]

/-- C9: decode enforces no bound on the payload length.  For any nonempty
payload, of any length (in particular longer than the 4000-byte input staging
capacity), every payload byte is copied into the heap starting at the fixed
input pointer and the native decode primitive is invoked with the full
length; nothing is rejected (source lines 56-72 perform no length check). -/
theorem c9_no_length_check (o : Oracle) (s : WorkerState) (bytes : List Nat)
    (hready : readyGuard s = true) (hb : bytes.length > 0) :
    (handleMessage o s (Cmd.decode (some bytes))).2.2 =
      [NativeCall.decodeCall (s.decoder.getD 0) (s.inputBuffer.getD 0) bytes.length
         (s.outputBuffer.getD 0) maxFrameSize] ∧
    (∀ (i : Nat) (hi : i < bytes.length),
       (handleMessage o s (Cmd.decode (some bytes))).1.heapU8
           (s.inputBuffer.getD 0 + (i : Int)) = bytes.get ⟨i, hi⟩) := by
  rcases lt_or_le (o.decodeRes s.decodeCount) 0 with hneg | hpos
  · rw [handleMessage_decode_failure o s bytes hready hb hneg]
    exact ⟨rfl, fun i hi => writeBytes_get bytes s.heapU8 (s.inputBuffer.getD 0) i hi⟩
  · rw [handleMessage_decode_success o s bytes hready hb hpos]
    exact ⟨rfl, fun i hi => writeBytes_get bytes s.heapU8 (s.inputBuffer.getD 0) i hi⟩

/-- Witness for c9_no_length_check: a 4001-byte payload, one byte over the
4000-byte staging capacity, is copied and dispatched in full. -/
theorem c9_witness :
    (handleMessage o1 readyS (Cmd.decode (some (List.replicate 4001 7)))).2.2 =
      [NativeCall.decodeCall (readyS.decoder.getD 0) (readyS.inputBuffer.getD 0)
         (List.replicate 4001 7).length (readyS.outputBuffer.getD 0) maxFrameSize] ∧
    (∀ (i : Nat) (hi : i < (List.replicate 4001 7).length),
       (handleMessage o1 readyS (Cmd.decode (some (List.replicate 4001 7)))).1.heapU8
           (readyS.inputBuffer.getD 0 + (i : Int)) =
         (List.replicate 4001 7).get ⟨i, hi⟩) :=
  c9_no_length_check o1 readyS (List.replicate 4001 7) (by decide)
    (by simp only [List.length_replicate]; omega)

/-- C10: an init command is accepted in any state, in particular a
guard-passing (Ready) one with no initialization pending: its completed
initialization creates a fresh native handle and mallocs fresh input and
output buffers, overwriting the state's references, while the trace contains
no native destroy at all and frees only the 4-byte error pointer — the
previous handle and buffers are never destroyed or freed (source lines 15-48
check no state and release nothing; line 141-144 accepts init always). -/
theorem c10_reinit_overwrites (o : Oracle) (s : WorkerState)
    (hready : readyGuard s = true) (hp : s.pendingInits = 0)
    (hl : o.loadOk s.initCount = true) (he : (o.createRes s.initCount).2 = 0) :
    (run o s [Action.deliver Cmd.init, Action.completeInit]).1.decoder =
      some (o.createRes s.initCount).1 ∧
    (run o s [Action.deliver Cmd.init, Action.completeInit]).1.inputBuffer =
      some (o.mallocIn s.initCount) ∧
    (run o s [Action.deliver Cmd.init, Action.completeInit]).1.outputBuffer =
      some (o.mallocOut s.initCount) ∧
    (run o s [Action.deliver Cmd.init, Action.completeInit]).2.1 =
      [OutEvent.decoderReady] ∧
    (run o s [Action.deliver Cmd.init, Action.completeInit]).2.2 =
      [NativeCall.mallocCall 4, NativeCall.createCall sampleRate channels,
       NativeCall.freeCall (o.errPtr s.initCount), NativeCall.mallocCall 4000,
       NativeCall.mallocCall (maxFrameSize * 4)] ∧
    (∀ hdl : Int,
       NativeCall.destroyCall hdl ∉ (run o s [Action.deliver Cmd.init, Action.completeInit]).2.2) ∧
    (∀ p : Int,
       NativeCall.freeCall p ∈ (run o s [Action.deliver Cmd.init, Action.completeInit]).2.2 →
         p = o.errPtr s.initCount) := by
  have hrun : run o s [Action.deliver Cmd.init, Action.completeInit] =
      ({ s with pendingInits := s.pendingInits + 1 - 1, initCount := s.initCount + 1,
                wasmModule := true,
                decoder := some (o.createRes s.initCount).1,
                inputBuffer := some (o.mallocIn s.initCount),
                outputBuffer := some (o.mallocOut s.initCount) },
       [OutEvent.decoderReady],
       [NativeCall.mallocCall 4, NativeCall.createCall sampleRate channels,
        NativeCall.freeCall (o.errPtr s.initCount), NativeCall.mallocCall 4000,
        NativeCall.mallocCall (maxFrameSize * 4)]) := by
    simp [run, step, handleMessage, finishInit, hp, hl, he]
  rw [hrun]
  refine ⟨rfl, rfl, rfl, rfl, rfl, ?_, ?_⟩
  · intro hdl
    simp
  · intro p hmem
    simpa using hmem

/-- Witness for c10_reinit_overwrites: a second init from the ready state
under o1 (its completed initialization is attempt number 1, handle 2, buffers
1100 and 10100). -/
theorem c10_witness :
    (run o1 readyS [Action.deliver Cmd.init, Action.completeInit]).1.decoder =
      some (o1.createRes readyS.initCount).1 ∧
    (run o1 readyS [Action.deliver Cmd.init, Action.completeInit]).1.inputBuffer =
      some (o1.mallocIn readyS.initCount) ∧
    (run o1 readyS [Action.deliver Cmd.init, Action.completeInit]).1.outputBuffer =
      some (o1.mallocOut readyS.initCount) ∧
    (run o1 readyS [Action.deliver Cmd.init, Action.completeInit]).2.1 =
      [OutEvent.decoderReady] ∧
    (run o1 readyS [Action.deliver Cmd.init, Action.completeInit]).2.2 =
      [NativeCall.mallocCall 4, NativeCall.createCall sampleRate channels,
       NativeCall.freeCall (o1.errPtr readyS.initCount), NativeCall.mallocCall 4000,
       NativeCall.mallocCall (maxFrameSize * 4)] ∧
    (∀ hdl : Int,
       NativeCall.destroyCall hdl ∉
         (run o1 readyS [Action.deliver Cmd.init, Action.completeInit]).2.2) ∧
    (∀ p : Int,
       NativeCall.freeCall p ∈
           (run o1 readyS [Action.deliver Cmd.init, Action.completeInit]).2.2 →
         p = o1.errPtr readyS.initCount) :=
  c10_reinit_overwrites o1 readyS (by decide) (by decide) (by decide) (by decide)

end BLEAudio
